import Mathlib

/-!
Verification development for the CRM (bonus-malus) assistant.

The repository's executable code (`src/assistant.py`) is a Streamlit
application: Firebase login, Google Drive document loading, Amazon
Textract OCR, and a question/answer loop that sends one large prompt to
the Gemini model.  The only piece of executable domain logic is
`calculate_crm_update` (a document-staleness check on the "Relevé
d'Information" edition date).  The bonus-malus (CRM) computation itself
is not implemented as code: it is delegated, as prose, to the language
model inside the prompt string of `query_gemini_with_history`.  The
specification reconstructs that computation as a deterministic engine;
the engine definitions below are therefore modelled from the spec's
words and say so in their doc comments, while everything else is
embedded from the Python source.

Dates are represented by proleptic Gregorian ordinals (Python's
`date.toordinal`): `datetime.now()` is modelled as the ordinal of the
current day, which is exactly what `(datetime.now() - ri_date).days`
depends on, since `ri_date` parses to midnight and `timedelta.days`
floors toward minus infinity.
-/

/-- Leap-year test, as used by Python's `datetime` (`calendar.isleap`). -/
def is_leap (y : Nat) : Bool :=
  y % 4 == 0 && (y % 100 != 0 || y % 400 == 0)

/-- Length of month `m` (1-12) in year `y`, as Python's `_days_in_month`. -/
def days_in_month (y m : Nat) : Nat :=
  if m = 2 then (if is_leap y then 29 else 28)
  else if m = 4 || m = 6 || m = 9 || m = 11 then 30
  else 31

/-- Number of days before January 1st of year `y` (Python `_days_before_year`).
The subtraction happens after the first two summands, which dominate it, so
`Nat` subtraction agrees with the integer value. -/
def days_before_year (y : Nat) : Nat :=
  (y - 1) * 365 + (y - 1) / 4 - (y - 1) / 100 + (y - 1) / 400

/-- Number of days in year `y` preceding the first of month `m`
(Python `_days_before_month`). -/
def days_before_month (y m : Nat) : Nat :=
  ((List.range (m - 1)).map (fun i => days_in_month y (i + 1))).sum

/-- Proleptic Gregorian ordinal of the date `y-m-d`, day 1 being 0001-01-01
(Python `date.toordinal`). -/
def toordinal (y m d : Nat) : Nat :=
  days_before_year y + days_before_month y m + d

/-- Split a character list at every `'/'`, keeping empty fields, as the
literal `/` separators of the `strptime` format string do. -/
def splitOnSlash : List Char → List (List Char)
  | [] => [[]]
  | c :: cs =>
    if c = '/' then [] :: splitOnSlash cs
    else
      match splitOnSlash cs with
      | f :: fs => (c :: f) :: fs
      | [] => [[c]]

/-- Decimal value of a digit string. -/
def digitsToNat (cs : List Char) : Nat :=
  cs.foldl (fun n c => 10 * n + (c.toNat - 48)) 0

/-- The `%d` directive of `datetime.strptime`: CPython's regex is
`3[01]|[12]\d|0[1-9]|[1-9]`, which matches exactly the digit strings of
length at most two whose value lies between 1 and 31. -/
def day_field (cs : List Char) : Option Nat :=
  if cs.length ≤ 2 && cs.all Char.isDigit &&
      1 ≤ digitsToNat cs && digitsToNat cs ≤ 31 then
    some (digitsToNat cs)
  else none

/-- The `%m` directive of `datetime.strptime`: CPython's regex is
`1[0-2]|0[1-9]|[1-9]`, the digit strings of length at most two with value
between 1 and 12. -/
def month_field (cs : List Char) : Option Nat :=
  if cs.length ≤ 2 && cs.all Char.isDigit &&
      1 ≤ digitsToNat cs && digitsToNat cs ≤ 12 then
    some (digitsToNat cs)
  else none

/-- The `%Y` directive of `datetime.strptime`: exactly four digits
(CPython regex `\d\d\d\d`). -/
def year_field (cs : List Char) : Option Nat :=
  if cs.length = 4 && cs.all Char.isDigit then some (digitsToNat cs) else none

/-- Python's `datetime.strptime(s, "%d/%m/%Y")`, returning `(day, month, year)`:
the three fields separated by literal slashes must cover the whole string and
the resulting triple must be a valid date (the `datetime` constructor
additionally requires `year ≥ 1` and `day` at most the month's length);
otherwise `ValueError`, modelled by `none`. -/
def strptime_dmY (s : String) : Option (Nat × Nat × Nat) :=
  match splitOnSlash s.data with
  | [ds, ms, ys] =>
    match day_field ds, month_field ms, year_field ys with
    | some d, some m, some y =>
      if 1 ≤ y && d ≤ days_in_month y m then some (d, m, y) else none
    | _, _, _ => none
  | _ => none

/-- Left-pad the decimal form of `n` with zeros to `width` characters. -/
def zero_pad (width n : Nat) : String :=
  String.mk (List.replicate (width - (toString n).length) '0') ++ toString n

/-- Python's `ri_date.strftime("%d/%m/%Y")` on a parsed date. -/
def format_dmY (d m y : Nat) : String :=
  zero_pad 2 d ++ "/" ++ zero_pad 2 m ++ "/" ++ zero_pad 4 y

/-- The warning returned by `calculate_crm_update` when the RI is stale. -/
def stale_message (crm_value date_str : String) : String :=
  "⚠️ Le CRM de " ++ crm_value ++ " est daté du " ++ date_str ++
    " et n'est donc pas à jour. Un RI plus récent (daté de moins de 3 mois) est nécessaire."

/-- The confirmation returned by `calculate_crm_update` when the RI is fresh. -/
def fresh_message (crm_value date_str : String) : String :=
  "✅ Le CRM de " ++ crm_value ++ " est à jour (émis le " ++ date_str ++ ")."

/-- `calculate_crm_update(ri_date, crm_value)` from `src/assistant.py`
(lines 162-170): parse `ri_date` with `strptime("%d/%m/%Y")` (a failure
raises `ValueError`, modelled by `Except.error`), subtract the parsed date
from `datetime.now()` — modelled by the explicit `today_ordinal` argument,
the ordinal of the current day — and return the stale warning when the
difference exceeds 90 days, the fresh confirmation otherwise. -/
def calculate_crm_update (today_ordinal : Nat) (ri_date crm_value : String) :
    Except String String :=
  match strptime_dmY ri_date with
  | none => .error "ValueError: time data does not match format %d/%m/%Y"
  | some (d, m, y) =>
    if 90 < (today_ordinal : Int) - (toordinal y m d : Int) then
      .ok (stale_message crm_value (format_dmY d m y))
    else
      .ok (fresh_message crm_value (format_dmY d m y))

/-- One interaction of the conversation history kept in
`st.session_state.history` (a question and the model's response). -/
structure QA where
  question : String
  response : String
deriving DecidableEq

/-- The Streamlit session object `st.session_state` as
`initialize_session_state` (lines 125-135) and `main` use it: login flag and
email, interaction history, company documents text and client documents
text.  It is session-scoped mutable state: Streamlit keeps it alive across
reruns of the script, so every invocation of the question handler reads and
writes the same object. -/
structure SessionState where
  logged_in : Bool
  user_email : Option String
  history : List QA
  docs_text : String
  client_docs_text : String
deriving DecidableEq

/-- The fresh session `initialize_session_state` creates when no key exists
yet: logged out, no email, empty history and document texts. -/
def initialize_session_state : SessionState :=
  { logged_in := false, user_email := none, history := [], docs_text := "",
    client_docs_text := "" }

/-- The Firebase user store: the set of e-mail addresses that have an
account, which is all `login` consults. -/
structure FirebaseAuth where
  users : List String
deriving DecidableEq

/-- Python `auth.get_user_by_email(email)`: the user record (its e-mail) when
an account exists, otherwise an exception, modelled by `none`. -/
def get_user_by_email (db : FirebaseAuth) (email : String) : Option String :=
  if email ∈ db.users then some email else none

/-- `login(email, password)` from `src/assistant.py` (lines 138-151): look
the user up by e-mail; when found, compare the record's e-mail with the
argument (the comment in the source concedes the password is never
validated) and on success set `logged_in` and `user_email`; a lookup failure
raises, is caught, and leaves the session unchanged.  The `password`
argument is received and ignored, exactly as in the source. -/
def login (db : FirebaseAuth) (email password : String) (s : SessionState) :
    SessionState :=
  match get_user_by_email db email with
  | some u =>
    if u == email then
      { s with logged_in := true, user_email := some email }
    else s
  | none => s

/-- Python `"\n".join(f"Q: ...\nR: ..." for h in history)` from
`query_gemini_with_history` (line 177). -/
def history_str (history : List QA) : String :=
  String.intercalate "\n"
    (history.map (fun h => "Q: " ++ h.question ++ "\nR: " ++ h.response))

/-- Modelled from the source with the literal prose abbreviated: the prompt
f-string of `query_gemini_with_history` (lines 183-1110) is about 900 lines
of instructions; only its interpolation structure is load-bearing for the
claims, so each constant below stands for one literal chunk between two
interpolated values, keeping the chunk's opening words. -/
def prompt_chunk1 : String :=
  "**System message** Rôle : Je suis Assurbot ... Comparez cette date avec la date d'aujourd'hui ("

/-- Literal prompt text between `date_aujourdhui` and `history_str`. -/
def prompt_chunk2 : String :=
  ") ... Historique des conversations :\n"

/-- Literal prompt text between `history_str` and `docs_text`. -/
def prompt_chunk3 : String :=
  "\nDocuments des compagnies d'assurance :\n"

/-- Literal prompt text between `docs_text` and `client_docs_text`. -/
def prompt_chunk4 : String :=
  "\nDocuments clients :\n"

/-- Literal prompt text between `client_docs_text` and `user_question`. -/
def prompt_chunk5 : String :=
  "\n**Question :** "

/-- The prompt `query_gemini_with_history` builds: the literal template with
today's date, the serialized history, the two document texts and the
question interpolated, in that order. -/
def build_prompt (date_aujourdhui docs_text client_docs_text user_question :
    String) (history : List QA) : String :=
  prompt_chunk1 ++ date_aujourdhui ++ prompt_chunk2 ++ history_str history ++
    prompt_chunk3 ++ docs_text ++ prompt_chunk4 ++ client_docs_text ++
    prompt_chunk5 ++ user_question

/-- `query_gemini_with_history` (lines 173-1115): build the prompt — reading
the clock for `date_aujourdhui` (line 180), modelled by the explicit
`date_aujourdhui` argument — and return the external model's response to
it.  The remote Gemini call `model.generate_content(prompt)` is modelled by
the function argument `gemini`, the only honest rendering of a network
round-trip to a generative model. -/
def query_gemini_with_history (gemini : String → String)
    (date_aujourdhui docs_text client_docs_text user_question : String)
    (history : List QA) : String :=
  gemini (build_prompt date_aujourdhui docs_text client_docs_text
    user_question history)

/-- The question handler of `main` (lines 1386-1394): query Gemini with the
session's documents and history, then `st.session_state.history.insert(0, ...)`
the new interaction — the session object carries it into the next
invocation. -/
def ask_question (gemini : String → String) (date_aujourdhui : String)
    (s : SessionState) (user_question : String) : SessionState :=
  let response := query_gemini_with_history gemini date_aujourdhui
    s.docs_text s.client_docs_text user_question s.history
  { s with history := { question := user_question, response := response } :: s.history }

/-- Modelled from the spec: the responsibility of a `ClaimRecord`
(`Full`, `Partial`, `None`; `None` is spelled `NoneResp`).  The engine this
responsibility feeds is not implemented as code in the repository — the
prompt of `query_gemini_with_history` describes it in prose — so the engine
definitions below follow the specification's section 4.4. -/
inductive Responsibility where
  | Full
  | Partial
  | NoneResp
deriving DecidableEq

/-- Modelled from the spec: an `AssessmentPeriod` as the engine consumes it —
its claims in chronological order (only their responsibilities matter
numerically), whether it is the final partial period of a terminated
record, and its duration in months. -/
structure AssessmentPeriod where
  claims : List Responsibility
  isFinalPartialPeriod : Bool
  durationMonths : Nat
deriving DecidableEq

/-- Modelled from the spec: the `CoefficientState` the engine evolves.
The coefficient `value` is held in hundredths (so `100` is the baseline
1.00 and the clamp range `[0.50, 3.50]` is `[50, 350]`), which makes the
"arrondi par défaut" — truncation toward zero at two decimals after every
multiplication — exact natural division. -/
structure CoefficientState where
  value : Nat
  consecutiveClaimFreeYears : Nat
  yearsAtFloor : Nat
  franchiseAvailable : Bool
deriving DecidableEq

/-- Modelled from the spec: the initial engine state — value 1.00, no
claim-free years, no years at the floor, no franchise. -/
def initialCoefficientState : CoefficientState :=
  { value := 100, consecutiveClaimFreeYears := 0, yearsAtFloor := 0,
    franchiseAvailable := false }

/-- Modelled from the spec (section 4.4, step 1): one claim of the claims
pass.  `Full`: multiply by 1.25 and truncate — in hundredths
`value * 125 / 100` — unless the franchise is available, in which case the
claim is exempt and the franchise is cleared; `Partial`: multiply by 1.125
and truncate — `value * 1125 / 1000` — with no franchise exemption;
`None`: no effect.  A `Full` or `Partial` claim resets
`consecutiveClaimFreeYears`. -/
def applyClaim (s : CoefficientState) : Responsibility → CoefficientState
  | .Full =>
    if s.franchiseAvailable then
      { s with franchiseAvailable := false, consecutiveClaimFreeYears := 0 }
    else
      { s with value := s.value * 125 / 100, consecutiveClaimFreeYears := 0 }
  | .Partial =>
    { s with value := s.value * 1125 / 1000, consecutiveClaimFreeYears := 0 }
  | .NoneResp => s

/-- Modelled from the spec: the claims pass applies the period's claims in
chronological order. -/
def claimsPass (s : CoefficientState) (claims : List Responsibility) :
    CoefficientState :=
  claims.foldl applyClaim s

/-- Modelled from the spec: whether the period saw a claim with `Full` or
`Partial` responsibility. -/
def hasResponsibleClaim (claims : List Responsibility) : Bool :=
  claims.any (fun r => r matches .Full || r matches .Partial)

/-- Modelled from the spec (section 4.4, step 2): the annual adjustment.
Only when no responsible claim occurred this period, and the period is a
normal or first period or a final partial period of at least 10 months:
multiply by 0.95 and truncate (`value * 95 / 100` in hundredths) and
increment `consecutiveClaimFreeYears`; a final partial period shorter than
10 months gets no reduction. -/
def annualAdjustment (p : AssessmentPeriod) (s : CoefficientState) :
    CoefficientState :=
  if hasResponsibleClaim p.claims then s
  else if !p.isFinalPartialPeriod || decide (10 ≤ p.durationMonths) then
    { s with value := s.value * 95 / 100,
             consecutiveClaimFreeYears := s.consecutiveClaimFreeYears + 1 }
  else s

/-- Modelled from the spec (section 4.4, step 3): clamp the value into
`[0.50, 3.50]`; a period ending at the 0.50 floor counts toward
`yearsAtFloor`, and three consecutive such years grant the franchise. -/
def clampStep (s : CoefficientState) : CoefficientState :=
  let v := min 350 (max 50 s.value)
  let yf := if v = 50 then s.yearsAtFloor + 1 else 0
  { s with value := v, yearsAtFloor := yf,
           franchiseAvailable := s.franchiseAvailable || decide (3 ≤ yf) }

/-- Modelled from the spec (section 4.4, step 4): the rapid descent — after
the other steps, a value above 1.00 with two consecutive claim-free years is
reset to exactly 1.00 and the claim-free counter restarts. -/
def rapidDescent (s : CoefficientState) : CoefficientState :=
  if 100 < s.value && decide (2 ≤ s.consecutiveClaimFreeYears) then
    { s with value := 100, consecutiveClaimFreeYears := 0 }
  else s

/-- Modelled from the spec: one period of the engine's state machine —
claims pass, annual adjustment, clamp, rapid descent, in that order. -/
def processPeriod (p : AssessmentPeriod) (s : CoefficientState) :
    CoefficientState :=
  rapidDescent (clampStep (annualAdjustment p (claimsPass s p.claims)))

/-- Modelled from the spec: the trace — the end-of-period state appended
after each period, the state seeding the next period. -/
def engineTrace (s : CoefficientState) : List AssessmentPeriod →
    List CoefficientState
  | [] => []
  | p :: ps =>
    let s' := processPeriod p s
    s' :: engineTrace s' ps

/-- Modelled from the spec: the coefficient at termination of a terminated
record is the trace value at the end of its last period. -/
def coefficientAtTermination (s : CoefficientState)
    (ps : List AssessmentPeriod) : Option Nat :=
  (engineTrace s ps).getLast?.map (·.value)

/-- Modelled from the spec: an assessment period's interval on the time
axis, measured in months; `start` is inclusive and `stop` — the spec's
`end`, which is a keyword in Lean — exclusive. -/
structure PeriodIv where
  start : Int
  stop : Int
deriving DecidableEq

/-- Modelled from the spec (section 4.3): the period's half-open interval
`[start, stop)` contains the claim's date. -/
def containsDate (p : PeriodIv) (d : Int) : Bool :=
  decide (p.start ≤ d) && decide (d < p.stop)

/-- Modelled from the spec (section 4.3): the claim falls within the last
two months before the period's end, so its recognition is deferred. -/
def deferredClaim (p : PeriodIv) (d : Int) : Bool :=
  decide (p.stop - 2 ≤ d)

/-- Modelled from the spec (section 4.3): the `ClaimAssigner` — the index of
the period a claim dated `d` is counted in: the period whose interval
contains `d`, shifted to the following period when the claim is deferred. -/
def assignIndex : List PeriodIv → Int → Option Nat
  | [], _ => none
  | p :: ps, d =>
    if containsDate p d then some (if deferredClaim p d then 1 else 0)
    else (assignIndex ps d).map (· + 1)

/-- The stale warning and the fresh confirmation are different strings for
every CRM value and date: their fixed parts have different lengths. -/
theorem stale_message_ne_fresh_message (crm_value date_str : String) :
    stale_message crm_value date_str ≠ fresh_message crm_value date_str := by
  intro h
  have hl := congrArg String.length h
  simp only [stale_message, fresh_message, String.length_append] at hl
  rw [show ("⚠️ Le CRM de " : String).length = 13 from by decide,
    show (" est daté du " : String).length = 13 from by decide,
    show (" et n'est donc pas à jour. Un RI plus récent (daté de moins de 3 mois) est nécessaire." : String).length = 86 from by decide,
    show ("✅ Le CRM de " : String).length = 12 from by decide,
    show (" est à jour (émis le " : String).length = 21 from by decide,
    show (")." : String).length = 2 from by decide] at hl
  omega

/-- C1: for every history (every parseable edition date), the staleness
check of `calculate_crm_update` returns the stale warning exactly when the
reference day minus the edition day exceeds 90 days and the fresh
confirmation otherwise — the two messages being distinct — and in both
cases it returns a result rather than blocking. -/
theorem staleness_flag_boundary (today_ordinal : Nat) (ri crm : String)
    (d m y : Nat) (h : strptime_dmY ri = some (d, m, y)) :
    calculate_crm_update today_ordinal ri crm =
      .ok (if 90 < (today_ordinal : Int) - (toordinal y m d : Int)
        then stale_message crm (format_dmY d m y)
        else fresh_message crm (format_dmY d m y)) ∧
    stale_message crm (format_dmY d m y) ≠ fresh_message crm (format_dmY d m y) := by
  refine ⟨?_, stale_message_ne_fresh_message crm (format_dmY d m y)⟩
  simp only [calculate_crm_update, h]
  split <;> rfl

/-- Witness for C1 at the spec's boundary: an edition date exactly 90 days
before the reference day (2024-01-01 seen on 2024-03-31) is fresh, and one
91 days before (seen on 2024-04-01) is stale. -/
theorem staleness_flag_boundary_witness :
    calculate_crm_update (toordinal 2024 3 31) "01/01/2024" "0.85" =
      .ok (fresh_message "0.85" (format_dmY 1 1 2024)) ∧
    calculate_crm_update (toordinal 2024 4 1) "01/01/2024" "0.85" =
      .ok (stale_message "0.85" (format_dmY 1 1 2024)) := by
  have h1 := staleness_flag_boundary (toordinal 2024 3 31) "01/01/2024" "0.85"
    1 1 2024 (by decide)
  have h2 := staleness_flag_boundary (toordinal 2024 4 1) "01/01/2024" "0.85"
    1 1 2024 (by decide)
  exact ⟨by rw [h1.1, if_neg (by decide)], by rw [h2.1, if_pos (by decide)]⟩

/-- C2 counterexample: the computation is not a pure function of the
caller-supplied inputs alone — `calculate_crm_update` reads the hidden clock
`datetime.now()`, so two invocations with the identical explicit inputs
(`ri_date = "01/01/2024"`, `crm_value = "0.85"`) return different results
when the clock has moved (2024-02-01 versus 2024-06-01). -/
theorem determinism_clock_counterexample :
    calculate_crm_update (toordinal 2024 2 1) "01/01/2024" "0.85" ≠
      calculate_crm_update (toordinal 2024 6 1) "01/01/2024" "0.85" := by
  intro h
  rw [show calculate_crm_update (toordinal 2024 2 1) "01/01/2024" "0.85" =
        .ok (fresh_message "0.85" (format_dmY 1 1 2024)) from rfl,
    show calculate_crm_update (toordinal 2024 6 1) "01/01/2024" "0.85" =
        .ok (stale_message "0.85" (format_dmY 1 1 2024)) from rfl] at h
  exact stale_message_ne_fresh_message "0.85" (format_dmY 1 1 2024)
    (Except.ok.inj h).symm

/-- C2 amended: determinism holds only relative to the clock reading —
for a fixed parseable input, `calculate_crm_update` depends on the hidden
clock exactly through the staleness comparison, so two invocations whose
clock readings classify the edition date the same way return identical
results. -/
theorem determinism_relative_to_clock (t t' : Nat) (ri crm : String)
    (d m y : Nat) (h : strptime_dmY ri = some (d, m, y))
    (hsame : (90 < (t : Int) - (toordinal y m d : Int)) ↔
      (90 < (t' : Int) - (toordinal y m d : Int))) :
    calculate_crm_update t ri crm = calculate_crm_update t' ri crm := by
  simp only [calculate_crm_update, h]
  by_cases hc : 90 < (t : Int) - (toordinal y m d : Int)
  · rw [if_pos hc, if_pos (hsame.mp hc)]
  · rw [if_neg hc, if_neg (fun hc2 => hc (hsame.mpr hc2))]

/-- Witness for the amended C2: two clock readings on the fresh side of the
boundary (2024-01-15 and 2024-02-15) give the same result. -/
theorem determinism_relative_to_clock_witness :
    calculate_crm_update (toordinal 2024 1 15) "01/01/2024" "0.85" =
      calculate_crm_update (toordinal 2024 2 15) "01/01/2024" "0.85" :=
  determinism_relative_to_clock (toordinal 2024 1 15) (toordinal 2024 2 15)
    "01/01/2024" "0.85" 1 1 2024 (by decide) (by decide)

/-- C9: `login` succeeds for every existing account whatever the password —
the session result is literally independent of the password argument, which
is never compared against anything, and for an e-mail with an account the
session is marked logged in with that e-mail recorded. -/
theorem login_ignores_password (db : FirebaseAuth) (email p1 p2 : String)
    (s : SessionState) :
    login db email p1 s = login db email p2 s ∧
    (email ∈ db.users →
      (login db email p1 s).logged_in = true ∧
      (login db email p1 s).user_email = some email) := by
  refine ⟨rfl, fun hm => ?_⟩
  simp [login, get_user_by_email, if_pos hm]

/-- Witness for C9: the account `a@b.c` logs in with two unrelated
passwords, and the session records the e-mail. -/
theorem login_ignores_password_witness :
    login ⟨["a@b.c"]⟩ "a@b.c" "hunter2" initialize_session_state =
      login ⟨["a@b.c"]⟩ "a@b.c" "completely different" initialize_session_state ∧
    ((login ⟨["a@b.c"]⟩ "a@b.c" "hunter2" initialize_session_state).logged_in = true ∧
      (login ⟨["a@b.c"]⟩ "a@b.c" "hunter2" initialize_session_state).user_email =
        some "a@b.c") :=
  ⟨(login_ignores_password ⟨["a@b.c"]⟩ "a@b.c" "hunter2" "completely different"
      initialize_session_state).1,
   (login_ignores_password ⟨["a@b.c"]⟩ "a@b.c" "hunter2" "completely different"
      initialize_session_state).2 (by decide)⟩

/-- C10: `calculate_crm_update` raises `ValueError` (here `Except.error`)
exactly on the `ri_date` strings that do not parse in the `%d/%m/%Y`
format, and returns a message string whenever the date parses. -/
theorem crm_update_requires_parseable_date (today_ordinal : Nat)
    (ri crm : String) :
    (strptime_dmY ri = none →
      calculate_crm_update today_ordinal ri crm =
        .error "ValueError: time data does not match format %d/%m/%Y") ∧
    (∀ d m y, strptime_dmY ri = some (d, m, y) →
      ∃ msg, calculate_crm_update today_ordinal ri crm = .ok msg) := by
  constructor
  · intro h
    simp [calculate_crm_update, h]
  · intro d m y h
    simp only [calculate_crm_update, h]
    split
    · exact ⟨_, rfl⟩
    · exact ⟨_, rfl⟩

/-- Witness for C10: `"31/02/2021"` matches the digit patterns but is no
valid date, so the call raises; `"15/03/2024"` parses and a message comes
back. -/
theorem crm_update_requires_parseable_date_witness :
    calculate_crm_update 738886 "31/02/2021" "1.0" =
      .error "ValueError: time data does not match format %d/%m/%Y" ∧
    ∃ msg, calculate_crm_update 738886 "15/03/2024" "1.0" = .ok msg :=
  ⟨(crm_update_requires_parseable_date 738886 "31/02/2021" "1.0").1 (by decide),
   (crm_update_requires_parseable_date 738886 "15/03/2024" "1.0").2
     15 3 2024 (by decide)⟩

/-- C8 counterexample: the question handler keeps session-scoped state.
Two sessions that asked different first questions hold different histories
afterwards, and a second invocation with the identical explicit question
builds a different prompt — so its result (here with the echo oracle) is
different: a call's outcome does not depend only on its own inputs.  The
first conjunct shows the write of invocation one is readable afterwards. -/
theorem session_state_counterexample :
    (ask_question (fun p => p) "01/01/2025" initialize_session_state
        "Question A").history ≠ initialize_session_state.history ∧
    query_gemini_with_history (fun p => p) "01/01/2025"
        (ask_question (fun p => p) "01/01/2025" initialize_session_state
          "Question A").docs_text
        (ask_question (fun p => p) "01/01/2025" initialize_session_state
          "Question A").client_docs_text
        "Même question"
        (ask_question (fun p => p) "01/01/2025" initialize_session_state
          "Question A").history ≠
      query_gemini_with_history (fun p => p) "01/01/2025"
        (ask_question (fun p => p) "01/01/2025" initialize_session_state
          "Question B").docs_text
        (ask_question (fun p => p) "01/01/2025" initialize_session_state
          "Question B").client_docs_text
        "Même question"
        (ask_question (fun p => p) "01/01/2025" initialize_session_state
          "Question B").history := by
  constructor
  · decide
  · decide

/-- C8 amended: the app keeps session-scoped mutable state — each
invocation of the question handler prepends its interaction to
`st.session_state.history`, which the prompt of every later invocation
reads, while the document texts persist unchanged; a call's result is a
function of the whole session state, not of its own question alone. -/
theorem session_state_persistence (gemini : String → String)
    (date_aujourdhui : String) (s : SessionState) (q : String) :
    (ask_question gemini date_aujourdhui s q).history =
      { question := q,
        response := query_gemini_with_history gemini date_aujourdhui
          s.docs_text s.client_docs_text q s.history } :: s.history ∧
    (ask_question gemini date_aujourdhui s q).docs_text = s.docs_text ∧
    (ask_question gemini date_aujourdhui s q).client_docs_text =
      s.client_docs_text :=
  ⟨rfl, rfl, rfl⟩

/-- A claims pass over a period without responsible claims leaves the state
unchanged: every claim is `None` and `None` has no effect. -/
theorem claimsPass_of_not_responsible {claims : List Responsibility}
    (h : hasResponsibleClaim claims = false) (s : CoefficientState) :
    claimsPass s claims = s := by
  induction claims generalizing s with
  | nil => rfl
  | cons c cs ih =>
    simp only [hasResponsibleClaim, List.any_cons, Bool.or_eq_false_iff] at h
    cases c with
    | Full => simp at h
    | Partial => simp at h
    | NoneResp =>
      rw [claimsPass, List.foldl_cons]
      exact ih (by simpa [hasResponsibleClaim] using h.2) s

/-- The value the clamp step leaves behind. -/
theorem clampStep_value (s : CoefficientState) :
    (clampStep s).value = min 350 (max 50 s.value) := rfl

/-- The clamp step does not touch the claim-free counter. -/
theorem clampStep_cfy (s : CoefficientState) :
    (clampStep s).consecutiveClaimFreeYears = s.consecutiveClaimFreeYears :=
  rfl

/-- The value after the rapid descent: reset to 100 above the baseline with
two claim-free years, untouched otherwise. -/
theorem rapidDescent_value (s : CoefficientState) :
    (rapidDescent s).value =
      if 100 < s.value ∧ 2 ≤ s.consecutiveClaimFreeYears then 100
      else s.value := by
  rw [rapidDescent]
  by_cases h : 100 < s.value ∧ 2 ≤ s.consecutiveClaimFreeYears
  · rw [if_pos (by simp [h.1, h.2]), if_pos h]
  · rw [if_neg (by simpa [Decidable.not_and_iff_or_not, -not_and] using
      not_and_or.mp h), if_neg h]

/-- The claim-free counter after the rapid descent. -/
theorem rapidDescent_cfy (s : CoefficientState) :
    (rapidDescent s).consecutiveClaimFreeYears =
      if 100 < s.value ∧ 2 ≤ s.consecutiveClaimFreeYears then 0
      else s.consecutiveClaimFreeYears := by
  rw [rapidDescent]
  by_cases h : 100 < s.value ∧ 2 ≤ s.consecutiveClaimFreeYears
  · rw [if_pos (by simp [h.1, h.2]), if_pos h]
  · rw [if_neg (by simpa [Decidable.not_and_iff_or_not, -not_and] using
      not_and_or.mp h), if_neg h]

/-- Every period's output value lies in the clamp range: the clamp step
forces it there and the rapid descent either keeps it or resets to 100. -/
theorem processPeriod_value_bounds (p : AssessmentPeriod)
    (s : CoefficientState) :
    50 ≤ (processPeriod p s).value ∧ (processPeriod p s).value ≤ 350 := by
  rw [processPeriod, rapidDescent_value, clampStep_value]
  split
  · omega
  · omega

/-- C3: a `Partial` claim multiplies the coefficient by exactly 1.125
truncated at two decimals — in hundredths `value * 1125 / 1000`, which is
`⌊9·value/8⌋`, the truncation of the exact product by 9/8 — and never
consumes an available franchise. -/
theorem partial_claim_multiplier (s : CoefficientState) :
    (applyClaim s .Partial).value = s.value * 1125 / 1000 ∧
    s.value * 1125 / 1000 = 9 * s.value / 8 ∧
    (applyClaim s .Partial).franchiseAvailable = s.franchiseAvailable := by
  refine ⟨rfl, ?_, rfl⟩
  rw [show s.value * 1125 = 125 * (9 * s.value) by ring,
    show (1000 : Nat) = 125 * 8 from rfl,
    Nat.mul_div_mul_left _ _ (by norm_num)]

/-- C4: the clamp invariant — every state the trace records after a period
has its coefficient in `[0.50, 3.50]` (in hundredths `[50, 350]`), for every
input history and starting state. -/
theorem coefficient_clamp_invariant (init : CoefficientState)
    (ps : List AssessmentPeriod) (st : CoefficientState)
    (h : st ∈ engineTrace init ps) :
    50 ≤ st.value ∧ st.value ≤ 350 := by
  induction ps generalizing init with
  | nil => simp [engineTrace] at h
  | cons p ps ih =>
    simp only [engineTrace, List.mem_cons] at h
    rcases h with rfl | h
    · exact processPeriod_value_bounds p init
    · exact ih _ h

/-- Witness for C4 on a concrete run: one claim-free annual period from the
initial state ends at 0.95, inside the clamp range. -/
theorem coefficient_clamp_invariant_witness :
    50 ≤ (⟨95, 1, 0, false⟩ : CoefficientState).value ∧
    (⟨95, 1, 0, false⟩ : CoefficientState).value ≤ 350 :=
  coefficient_clamp_invariant initialCoefficientState
    [{ claims := [], isFinalPartialPeriod := true, durationMonths := 12 }]
    ⟨95, 1, 0, false⟩ (by decide)

/-- A `Full` claim with no franchise available multiplies the value by 1.25
truncated, and resets the claim-free counter. -/
theorem applyClaim_full (s : CoefficientState)
    (h : s.franchiseAvailable = false) :
    applyClaim s .Full =
      { s with value := s.value * 125 / 100,
               consecutiveClaimFreeYears := 0 } := by
  rw [show applyClaim s .Full = if s.franchiseAvailable then
      { s with franchiseAvailable := false, consecutiveClaimFreeYears := 0 }
    else
      { s with value := s.value * 125 / 100, consecutiveClaimFreeYears := 0 }
    from rfl]
  rw [h]
  exact if_neg (by simp)

/-- C5: on a terminated record's final partial period starting from 1.00 —
with no responsible claim, a duration of at least 10 months earns the 5%
reduction (coefficient 0.95) and a shorter duration earns none (coefficient
stays 1.00); a responsible claim's majoration applies whatever the
duration (a `Full` claim yields 1.25 with either duration). -/
theorem final_partial_period_reduction :
    (∀ (claims : List Responsibility) (dur yf : Nat) (fr : Bool),
      hasResponsibleClaim claims = false →
      (processPeriod
        { claims := claims, isFinalPartialPeriod := true, durationMonths := dur }
        ⟨100, 0, yf, fr⟩).value = if 10 ≤ dur then 95 else 100) ∧
    (∀ (dur yf : Nat),
      (processPeriod
        { claims := [.Full], isFinalPartialPeriod := true, durationMonths := dur }
        ⟨100, 0, yf, false⟩).value = 125) := by
  constructor
  · intro claims dur yf fr h
    rw [processPeriod, claimsPass_of_not_responsible h, annualAdjustment]
    rw [if_neg (by simp [h])]
    by_cases hdur : 10 ≤ dur
    · rw [if_pos (by simp [hdur]), rapidDescent_value, clampStep_value,
        clampStep_cfy]
      rw [if_neg (by norm_num), if_pos hdur]
      norm_num
    · rw [if_neg (by simp [hdur]), rapidDescent_value, clampStep_value,
        clampStep_cfy]
      rw [if_neg (by norm_num), if_neg hdur]
      norm_num
  · intro dur yf
    rw [processPeriod]
    rw [show claimsPass ⟨100, 0, yf, false⟩ [.Full] =
      (⟨125, 0, yf, false⟩ : CoefficientState) by
        rw [claimsPass, List.foldl_cons, List.foldl_nil, applyClaim_full _ rfl]
        norm_num]
    rw [annualAdjustment, if_pos (by simp [hasResponsibleClaim])]
    rw [rapidDescent_value, clampStep_value, clampStep_cfy]
    rw [if_neg (by norm_num)]
    norm_num

/-- Witness for C5: a claim-free 10-month terminated period from 1.00 ends
at 0.95, and a `Full` claim in a 9-month one yields 1.25. -/
theorem final_partial_period_reduction_witness :
    (processPeriod
      { claims := [], isFinalPartialPeriod := true, durationMonths := 10 }
      ⟨100, 0, 0, false⟩).value = (if 10 ≤ 10 then 95 else 100) ∧
    (processPeriod
      { claims := [.Full], isFinalPartialPeriod := true, durationMonths := 9 }
      ⟨100, 0, 0, false⟩).value = 125 :=
  ⟨final_partial_period_reduction.1 [] 10 0 false rfl,
   final_partial_period_reduction.2 9 0⟩

/-- C6 counterexample: the rapid-descent law does not hold for every state
with value above 1.00 — starting from 1.01, two consecutive claim-free
annual periods end at 0.90, not 1.00: the two 5% annual reductions take a
small malus below the baseline before the descent could fire. -/
theorem rapid_descent_counterexample :
    100 < (101 : Nat) ∧
    (engineTrace ⟨101, 0, 0, false⟩
      [{ claims := [], isFinalPartialPeriod := false, durationMonths := 12 },
       { claims := [], isFinalPartialPeriod := false, durationMonths := 12 }]).map
      (·.value) = [95, 90] ∧ (90 : Nat) ≠ 100 := by
  refine ⟨by norm_num, by decide, by norm_num⟩

/-- A claim-free, reduction-eligible period is the annual reduction followed
by clamp and rapid descent. -/
theorem processPeriod_claim_free (p : AssessmentPeriod) (s : CoefficientState)
    (h : hasResponsibleClaim p.claims = false)
    (e : p.isFinalPartialPeriod = false ∨ 10 ≤ p.durationMonths) :
    processPeriod p s =
      rapidDescent (clampStep
        { s with value := s.value * 95 / 100,
                 consecutiveClaimFreeYears := s.consecutiveClaimFreeYears + 1 }) := by
  rw [processPeriod, claimsPass_of_not_responsible h, annualAdjustment]
  rw [if_neg (by simp [h])]
  rcases e with e | e
  · rw [if_pos (by simp [e])]
  · rw [if_pos (by simp [e])]

/-- C6 amended: starting from a state with value at least 1.12 and a fresh
claim-free counter, two consecutive claim-free reduction-eligible periods
always end at exactly 1.00 — the amendment the counterexample forces, since
values in (1.00, 1.12) drop below 1.00 under the two 5% reductions and an
already started counter can fire the descent one period early. -/
theorem rapid_descent_from_112 (s : CoefficientState)
    (p1 p2 : AssessmentPeriod)
    (h112 : 112 ≤ s.value) (hcfy : s.consecutiveClaimFreeYears = 0)
    (h1 : hasResponsibleClaim p1.claims = false)
    (h2 : hasResponsibleClaim p2.claims = false)
    (e1 : p1.isFinalPartialPeriod = false ∨ 10 ≤ p1.durationMonths)
    (e2 : p2.isFinalPartialPeriod = false ∨ 10 ≤ p2.durationMonths) :
    (processPeriod p2 (processPeriod p1 s)).value = 100 := by
  rw [processPeriod_claim_free p1 s h1 e1,
    processPeriod_claim_free p2 _ h2 e2]
  have hv1 : (rapidDescent (clampStep
      { s with value := s.value * 95 / 100,
               consecutiveClaimFreeYears := s.consecutiveClaimFreeYears + 1 })).value =
      min 350 (max 50 (s.value * 95 / 100)) := by
    rw [rapidDescent_value, clampStep_value, clampStep_cfy]
    rw [if_neg (by simp [hcfy])]
  have hc1 : (rapidDescent (clampStep
      { s with value := s.value * 95 / 100,
               consecutiveClaimFreeYears := s.consecutiveClaimFreeYears + 1 })).consecutiveClaimFreeYears =
      1 := by
    rw [rapidDescent_cfy, clampStep_cfy]
    rw [if_neg (by simp [hcfy])]
    simp [hcfy]
  generalize ht : rapidDescent (clampStep
      { s with value := s.value * 95 / 100,
               consecutiveClaimFreeYears := s.consecutiveClaimFreeYears + 1 }) = t at hv1 hc1
  rw [rapidDescent_value, clampStep_value, clampStep_cfy]
  have k1 : 106 ≤ s.value * 95 / 100 := by omega
  have k2 : 106 ≤ t.value ∧ t.value ≤ 350 := by omega
  have k3 : 100 ≤ t.value * 95 / 100 ∧ t.value * 95 / 100 ≤ 332 := by
    constructor
    · have h1 : 106 * 95 ≤ t.value * 95 := Nat.mul_le_mul_right 95 k2.1
      have h2 : _ / 100 ≤ _ / 100 := Nat.div_le_div_right h1
      omega
    · have h1 : t.value * 95 ≤ 350 * 95 := Nat.mul_le_mul_right 95 k2.2
      have h2 : _ / 100 ≤ _ / 100 := Nat.div_le_div_right h1
      omega
  simp only [hc1]
  split
  · rfl
  · omega

/-- Witness for the amended C6, on the spec's own example: 1.66 with two
claim-free annual periods ends at exactly 1.00. -/
theorem rapid_descent_from_112_witness :
    (processPeriod
      { claims := [], isFinalPartialPeriod := false, durationMonths := 12 }
      (processPeriod
        { claims := [], isFinalPartialPeriod := false, durationMonths := 12 }
        ⟨166, 0, 0, false⟩)).value = 100 :=
  rapid_descent_from_112 ⟨166, 0, 0, false⟩
    { claims := [], isFinalPartialPeriod := false, durationMonths := 12 }
    { claims := [], isFinalPartialPeriod := false, durationMonths := 12 }
    (by norm_num) rfl rfl rfl (Or.inl rfl) (Or.inl rfl)

/-- C7: over chronologically sorted, pairwise disjoint periods, a claim is
counted in the unique period whose half-open interval contains its date,
except that a claim within the last two months before that period's end is
deferred to the following period; the containing period is unique. -/
theorem claim_assignment_deferral (ps : List PeriodIv) (d : Int)
    (hsorted : ps.Pairwise (fun p q => p.stop ≤ q.start))
    (i : Nat) (hi : i < ps.length)
    (hc : containsDate (ps.get ⟨i, hi⟩) d = true) :
    assignIndex ps d =
      some (if deferredClaim (ps.get ⟨i, hi⟩) d then i + 1 else i) ∧
    ∀ j (hj : j < ps.length), containsDate (ps.get ⟨j, hj⟩) d = true →
      j = i := by
  induction ps generalizing i with
  | nil => exact absurd hi (by simp)
  | cons p ps ih =>
    rw [List.pairwise_cons] at hsorted
    obtain ⟨hp, hps⟩ := hsorted
    match i with
    | 0 =>
      have hcp : containsDate p d = true := hc
      constructor
      · rw [assignIndex, if_pos hcp]
        have hdef0 : ((p :: ps).get ⟨0, hi⟩) = p := rfl
        rw [hdef0]
      · intro j hj hcj
        match j with
        | 0 => rfl
        | j + 1 =>
          exfalso
          have hj' : j < ps.length := Nat.lt_of_succ_lt_succ hj
          have hle := hp _ (List.get_mem ps j hj')
          have hcj' : containsDate (ps.get ⟨j, hj'⟩) d = true := hcj
          simp only [containsDate, Bool.and_eq_true, decide_eq_true_eq]
            at hcp hcj'
          omega
    | i + 1 =>
      have hi' : i < ps.length := Nat.lt_of_succ_lt_succ hi
      have hc' : containsDate (ps.get ⟨i, hi'⟩) d = true := hc
      obtain ⟨heq, huniq⟩ := ih hps i hi' hc'
      have hcp : containsDate p d = false := by
        have hle := hp _ (List.get_mem ps i hi')
        simp only [containsDate, Bool.and_eq_true, decide_eq_true_eq] at hc'
        simp only [containsDate, Bool.and_eq_false_iff, decide_eq_false_iff_not]
        omega
      constructor
      · rw [assignIndex, if_neg (by simp [hcp]), heq]
        have hdef : deferredClaim ((p :: ps).get ⟨i + 1, hi⟩) d =
            deferredClaim (ps.get ⟨i, hi'⟩) d := rfl
        rw [hdef]
        cases deferredClaim (ps.get ⟨i, hi'⟩) d <;> simp
      · intro j hj hcj
        match j with
        | 0 => exact absurd hcj (by simp [hcp])
        | j + 1 =>
          have hj' : j < ps.length := Nat.lt_of_succ_lt_succ hj
          have hcj' : containsDate (ps.get ⟨j, hj'⟩) d = true := hcj
          exact congrArg Nat.succ (huniq j hj' hcj')

/-- Witness for C7: with periods `[0,12)` and `[12,24)` (months), a claim
dated 11 — within the last two months of the first period — is deferred to
the second period. -/
theorem claim_assignment_deferral_witness :
    assignIndex [⟨0, 12⟩, ⟨12, 24⟩] 11 = some 1 := by
  have h := claim_assignment_deferral [⟨0, 12⟩, ⟨12, 24⟩] 11
    (by constructor
        · intro q hq
          simp at hq
          rw [hq]
        · simp)
    0 (by norm_num) (by decide)
  rw [h.1]
  decide
